import Mathlib

/-!
Shallow embedding of the TAC-Resume job-matching engine.

The definitions below translate `src/job_matcher.py` (the job match engine) and
the rule-based fallback extractor `LocalAIBackup.analyze_job_posting` from
`src/local_ai_backup.py` into Lean.  Conventions of the embedding:

* Python `float` scores become `Rat` (the score arithmetic of the source is
  exact decimal arithmetic on small rationals, so `Rat` is the idealisation the
  spec's "within floating-point tolerance" refers to).
* The two generative-text collaborator calls (structured job-description
  extraction and recommendation generation) are modelled as `Option`-valued
  parameters: `none` models any failure (timeout, transport error, unparsable
  content) that raises inside the corresponding `try` block; `some r` models a
  successfully parsed JSON response `r`.  A parsed extraction response is a
  record of `Option` fields, mirroring that the JSON object may lack any key
  (the source reads the analysis dict with `.get` defaults everywhere except
  one bare `job_analysis['required_skills']` access).
* The TF-IDF cosine similarity computed by scikit-learn is an external
  collaborator as well: it is a parameter `tfidf` returning `Option Rat`,
  `none` modelling a vectorizer exception (caught by the source, which then
  returns the zero-score default).
* `datetime.now()` is a parameter `now = (year, month)` (only those two fields
  of `now` are read by the source).
* Resume fields are typed; absent/null text fields are the empty string and
  absent lists are `[]`, mirroring the `.get(..., default)` reads of the
  source.  Date strings are arbitrary strings; unparsable dates are skipped
  exactly as the source's `try/except: continue` does.  Strings are assumed
  ASCII for `lower`/`\w` purposes (the source feeds ASCII resume/job text).
-/

set_option maxRecDepth 16000

attribute [local semireducible] Rat.mul Rat.inv Rat.add Rat.sub Rat.ofScientific

namespace JobMatcher

/-- Python `str.lower()` (ASCII). -/
def lower (s : String) : String := String.mk (s.data.map Char.toLower)

/-- `pat` matches at the head of `text` (used to build substring search). -/
def matchesAt : List Char → List Char → Bool
  | [], _ => true
  | _ :: _, [] => false
  | a :: as, b :: bs => a = b && matchesAt as bs

/-- `pat` occurs somewhere in `text`. -/
def occursIn (pat : List Char) : List Char → Bool
  | [] => matchesAt pat []
  | c :: t => matchesAt pat (c :: t) || occursIn pat t

/-- Python `pat in s` for strings: substring containment. -/
def strContains (s pat : String) : Bool := occursIn pat.data s.data

/-- Python `min` on two floats: returns the first argument on ties. -/
def pyMin (a b : Rat) : Rat := if a ≤ b then a else b

/-- Python `max` on two ints (kernel-reducible, unlike the lattice `max`). -/
def pyMaxInt (a b : Int) : Int := if a < b then b else a

/-- Python `max` on two naturals. -/
def pyMaxNat (a b : Nat) : Nat := if a < b then b else a

/-- A regex word character `\w` = `[a-zA-Z0-9_]` (ASCII). -/
def isWordChar (c : Char) : Bool := c.isAlpha || c.isDigit || c = '_'

/-- One pass splitting a character list into maximal `\w`-runs, each paired
with the (possibly empty) non-word gap that follows it.  The gap before the
first run is dropped.  Accumulator holds pairs in reverse with reversed
contents; `inRun` records whether the previous character extended the head
run. -/
def rgFold (acc : List (List Char × List Char)) (inRun : Bool) :
    List Char → List (List Char × List Char)
  | [] => (acc.map (fun p => (p.1.reverse, p.2.reverse))).reverse
  | c :: rest =>
    if isWordChar c then
      match acc, inRun with
      | (r, g) :: tail, true => rgFold ((c :: r, g) :: tail) true rest
      | _, _ => rgFold (([c], []) :: acc) true rest
    else
      match acc with
      | [] => rgFold [] false rest
      | (r, g) :: tail => rgFold ((r, c :: g) :: tail) false rest

/-- Maximal word runs of a string with their trailing gaps. -/
def runGapPairs (s : String) : List (List Char × List Char) := rgFold [] false s.data

/-- The maximal `\w`-runs of a string, in order. -/
def wordRuns (s : String) : List (List Char) := (runGapPairs s).map (·.1)

/-- `re.findall(r'\b[a-zA-Z]{3,}\b', s)`: a match is exactly a maximal word
run made of letters only, of length ≥ 3 (an adjacent digit or underscore
destroys the word boundary). -/
def findall_alpha3 (s : String) : List String :=
  ((wordRuns s).filter (fun r => r.all Char.isAlpha && decide (3 ≤ r.length))).map String.mk

/-- `re.findall(r'\b[A-Z]{2,}\b', s)`: maximal word runs of uppercase letters,
length ≥ 2. -/
def findall_acronyms (s : String) : List String :=
  ((wordRuns s).filter (fun r => r.all Char.isUpper && decide (2 ≤ r.length))).map String.mk

/-- Number of matches of `re.findall(r'\b\d+[%$]?\b', s)`: one per maximal
word run consisting of digits only (the optional `%`/`$` never adds matches,
it only extends one when a word character follows it). -/
def count_number_matches (s : String) : Nat :=
  ((wordRuns s).filter (fun r => r.all Char.isDigit)).length

/-- Group consecutive runs joined by a gap that is exactly one dot: the
matches of `\b\w+(?:\.\w+)+\b` are the groups of length ≥ 2. -/
def chainGroups : List (List Char × List Char) → List (List (List Char))
  | [] => []
  | (r, g) :: rest =>
    let groups := chainGroups rest
    if g = ['.'] then
      match groups with
      | grp :: grps => (r :: grp) :: grps
      | [] => [[r]]
    else [r] :: groups

/-- `re.findall(r'\b\w+(?:\.\w+)+\b', s)`: dot-joined technology names. -/
def findall_dotted (s : String) : List String :=
  ((chainGroups (runGapPairs s)).filter (fun grp => decide (2 ≤ grp.length))).map
    (fun grp => String.intercalate "." (grp.map String.mk))

/-- `re.findall(r'\b\w+\+{1,2}\b', s)`: a word run followed by one or two `+`
matches only when a word character follows the plus signs (otherwise there is
no closing word boundary), i.e. when the gap to the next run is exactly `+` or
`++`. -/
def findall_plus : List (List Char × List Char) → List String
  | [] => []
  | [_] => []
  | (r, g) :: rest =>
    (if g = ['+'] || g = ['+', '+'] then [String.mk (r ++ g)] else []) ++ findall_plus rest

def findall_pluses (s : String) : List String := findall_plus (runGapPairs s)

/-! ## Data model -/

/-- One work-history entry of the resume record (`experience` items).  Absent
text fields are `""`. -/
structure ExperienceEntry where
  job_title : String := ""
  company : String := ""
  location : String := ""
  start_date : String := ""
  end_date : String := ""
  is_current : Bool := false
  description : String := ""
deriving DecidableEq

/-- One education entry of the resume record. -/
structure EducationEntry where
  degree : String := ""
  field_of_study : String := ""
  institution : String := ""
  graduation_date : String := ""
  gpa : String := ""
deriving DecidableEq

/-- The resume record consumed by the engine (`resume_data` mapping). -/
structure ResumeData where
  full_name : String := ""
  summary : String := ""
  skills : List String := []
  experience : List ExperienceEntry := []
  education : List EducationEntry := []
deriving DecidableEq

/-- A successfully parsed JSON response of the generative-text extraction
call.  Every field is optional: the model may omit any key, and the engine
reads them back with `.get` defaults (except `required_skills`, which
`match_resume_to_job` reads with a bare subscript). -/
structure AIResponse where
  required_skills : Option (List String) := none
  preferred_skills : Option (List String) := none
  hard_requirements : Option (List String) := none
  soft_requirements : Option (List String) := none
  responsibilities : Option (List String) := none
  keywords : Option (List String) := none
  experience_level : Option String := none
  education_requirements : Option (List String) := none
  industry : Option String := none
  company_size : Option String := none
  job_type : Option String := none
  salary_range : Option String := none
  location : Option String := none
deriving DecidableEq

/-- The analysis dict returned by `analyze_job_description`: the (possibly
partial) AI fields plus the two fields the engine always sets itself. -/
structure JobAnalysis where
  required_skills : Option (List String) := none
  preferred_skills : Option (List String) := none
  hard_requirements : Option (List String) := none
  soft_requirements : Option (List String) := none
  responsibilities : Option (List String) := none
  keywords : Option (List String) := none
  experience_level : Option String := none
  education_requirements : Option (List String) := none
  industry : Option String := none
  company_size : Option String := none
  job_type : Option String := none
  salary_range : Option String := none
  location : Option String := none
  word_frequency : List (String × Nat) := []
  ats_keywords : List String := []
deriving DecidableEq

/-! ## Deterministic text analysis (`_analyze_word_frequency`,
`_extract_ats_keywords`) -/

/-- The stop-word set of `_analyze_word_frequency` (every entry has length
3; `way` appears twice in the source set literal, which is redundant). -/
def stop_words : List String :=
  ["the", "and", "for", "are", "but", "not", "you", "all", "can", "had", "her",
   "was", "one", "our", "out", "day", "get", "has", "him", "his", "how", "its",
   "may", "new", "now", "old", "see", "two", "who", "boy", "did", "man", "run",
   "she", "top", "way", "yes", "yet"]

/-- Count words in first-occurrence order: Python dict insertion semantics. -/
def bumpWord (acc : List (String × Nat)) (w : String) : List (String × Nat) :=
  if acc.any (fun p => p.1 = w) then
    acc.map (fun p => if p.1 = w then (p.1, p.2 + 1) else p)
  else acc ++ [(w, 1)]

/-- Stable insertion into a list sorted by count descending (Python `sorted`
with `reverse=True` is stable, so ties keep insertion order). -/
def insertDesc (p : String × Nat) : List (String × Nat) → List (String × Nat)
  | [] => [p]
  | q :: qs => if q.2 > p.2 then q :: insertDesc p qs else p :: q :: qs

def sortDescByCount : List (String × Nat) → List (String × Nat)
  | [] => []
  | p :: ps => insertDesc p (sortDescByCount ps)

/-- `_analyze_word_frequency`: lowercase, take the alphabetic tokens of the
`[a-zA-Z]{3,}` scan, keep those not in the stop-word set AND of length
strictly greater than 3 (the `len(word) > 3` filter of the source), count
them, and return the top 20 by frequency. -/
def analyze_word_frequency (text : String) : List (String × Nat) :=
  let words := findall_alpha3 (lower text)
  let kept := words.filter (fun w => !(stop_words.contains w) && decide (w.length > 3))
  (sortDescByCount (kept.foldl bumpWord [])).take 20

/-- `_extract_ats_keywords`: the three technical-skill regex scans, joined in
pattern order, then deduplicated (`list(set(...))`; the Python set order is
arbitrary, the embedding keeps first occurrences — no claim depends on the
order). -/
def extract_ats_keywords (job_description : String) : List String :=
  (findall_acronyms job_description ++ findall_dotted job_description ++
    findall_pluses job_description).eraseDups

/-! ## `analyze_job_description` -/

/-- The dict literal returned by the `except` branch of
`analyze_job_description`: every field present with its default, including
empty `word_frequency` and `ats_keywords`. -/
def default_job_analysis : JobAnalysis :=
  { required_skills := some []
    preferred_skills := some []
    hard_requirements := some []
    soft_requirements := some []
    responsibilities := some []
    keywords := some []
    experience_level := some "unknown"
    education_requirements := some []
    industry := some "unknown"
    company_size := some "unknown"
    job_type := some "unknown"
    salary_range := some ""
    location := some ""
    word_frequency := []
    ats_keywords := [] }

/-- `analyze_job_description`: on a parsed collaborator response the engine
keeps the response fields as-is and adds the two deterministic analyses; on
any failure it returns the all-default dict. -/
def analyze_job_description (ai : Option AIResponse) (job_description : String) :
    JobAnalysis :=
  match ai with
  | some a =>
    { required_skills := a.required_skills
      preferred_skills := a.preferred_skills
      hard_requirements := a.hard_requirements
      soft_requirements := a.soft_requirements
      responsibilities := a.responsibilities
      keywords := a.keywords
      experience_level := a.experience_level
      education_requirements := a.education_requirements
      industry := a.industry
      company_size := a.company_size
      job_type := a.job_type
      salary_range := a.salary_range
      location := a.location
      word_frequency := analyze_word_frequency job_description
      ats_keywords := extract_ats_keywords job_description }
  | none => default_job_analysis

/-! ## Resume text and experience duration -/

/-- `_extract_resume_text`: summary, experience titles/companies/descriptions,
education degree/field/institution, skills; empty parts dropped, joined with
single spaces. -/
def extract_resume_text (resume_data : ResumeData) : String :=
  let text_parts :=
    [resume_data.summary] ++
    (resume_data.experience.flatMap (fun exp => [exp.job_title, exp.company, exp.description])) ++
    (resume_data.education.flatMap (fun edu => [edu.degree, edu.field_of_study, edu.institution])) ++
    resume_data.skills
  String.intercalate " " (text_parts.filter (fun p => p ≠ ""))

def str_digits_to_nat (s : List Char) : Nat :=
  s.foldl (fun a c => a * 10 + (c.toNat - 48)) 0

/-- Split on `-` (the semantics of `str.split`/`String.splitOn` for a
one-character separator). -/
def splitDashAux (cur : List Char) : List Char → List (List Char)
  | [] => [cur.reverse]
  | c :: rest =>
    if c = '-' then cur.reverse :: splitDashAux [] rest else splitDashAux (c :: cur) rest

def splitDash (s : String) : List String := (splitDashAux [] s.data).map String.mk

def all_digits (s : List Char) : Bool := !s.isEmpty && s.all Char.isDigit

def is_leap_year (y : Nat) : Bool := (y % 4 = 0 && y % 100 ≠ 0) || y % 400 = 0

def days_in_month (y m : Nat) : Nat :=
  if m = 2 then (if is_leap_year y then 29 else 28)
  else if m = 4 || m = 6 || m = 9 || m = 11 then 30
  else 31

/-- `datetime.fromisoformat` on the date formats the repository stores
(`YYYY-MM-DD` from the date-picker UI, `YYYY-MM` from the LinkedIn import):
only zero-padded `YYYY-MM-DD` with a valid calendar date parses; in every
CPython version `fromisoformat` rejects the reduced-precision `YYYY-MM` form,
so those entries raise and are skipped by the callers.  Returns
`(year, month)`, the only fields the engine reads.  Exotic ISO forms with
time components are outside the modelled input space. -/
def parse_iso_date (s : String) : Option (Int × Int) :=
  match splitDash s with
  | [ys, ms, ds] =>
    if all_digits ys.data && ys.length = 4 && all_digits ms.data && ms.length = 2 &&
        all_digits ds.data && ds.length = 2 then
      let y := str_digits_to_nat ys.data
      let m := str_digits_to_nat ms.data
      let d := str_digits_to_nat ds.data
      if 1 ≤ y && 1 ≤ m && m ≤ 12 && 1 ≤ d && d ≤ days_in_month y m then
        some ((y : Int), (m : Int))
      else none
    else none
  | _ => none

/-- Round to the nearest integer, ties to even (the rounding of Python
`round`). -/
def round_half_even (q : Rat) : Int :=
  let f := q.floor
  let r := q - (f : Rat)
  if r < mkRat 1 2 then f
  else if mkRat 1 2 < r then f + 1
  else if f % 2 = 0 then f else f + 1

/-- Python `round(x, 1)` on the exact value (the month counts divided by 12
never sit close enough to a decimal boundary for binary floating point to
disagree with exact rounding, and the tie cases `m/12 ∈ 0.25 + 0.5·ℤ` are
exactly representable, where Python also rounds half to even). -/
def py_round1 (q : Rat) : Rat := ((round_half_even (q * 10) : Rat)) / 10

/-- The month contribution of one experience entry: a falsy or unparsable
`start_date` skips the entry (contributes nothing); a truthy non-current
`end_date` is parsed (an unparsable one also skips the entry), otherwise the
end is `now = (year, month)`; the span is floored at 0. -/
def entry_months (now : Int × Int) (exp : ExperienceEntry) : Int :=
  match parse_iso_date exp.start_date with
  | none => 0
  | some (sy, sm) =>
    if exp.end_date ≠ "" && !exp.is_current then
      match parse_iso_date exp.end_date with
      | none => 0
      | some (ey, em) => pyMaxInt 0 ((ey - sy) * 12 + (em - sm))
    else pyMaxInt 0 ((now.1 - sy) * 12 + (now.2 - sm))

/-- `_calculate_total_experience`: accumulate the month spans of the entries
and convert to years rounded to one decimal. -/
def calculate_total_experience (now : Int × Int) (resume_data : ResumeData) : Rat :=
  let total_months : Int :=
    (resume_data.experience.map (entry_months now)).foldl (· + ·) 0
  py_round1 ((total_months : Rat) / 12)

/-! ## The five scorers -/

/-- Result dict of `_calculate_skill_match`. -/
structure SkillMatch where
  score : Rat
  matching_required : List String
  matching_preferred : List String
  missing_required : List String
  missing_preferred : List String
  total_matches : Nat
deriving DecidableEq

/-- `_calculate_skill_match`: case-insensitive fuzzy matching (two skills
match when either lowercased string contains the other). -/
def calculate_skill_match (resume_data : ResumeData) (job_analysis : JobAnalysis) :
    SkillMatch :=
  let resume_skills := resume_data.skills.map lower
  let required_skills := (job_analysis.required_skills.getD []).map lower
  let preferred_skills := (job_analysis.preferred_skills.getD []).map lower
  let matching_required := required_skills.filter
    (fun skill => resume_skills.any (fun rs => strContains skill rs || strContains rs skill))
  let matching_preferred := preferred_skills.filter
    (fun skill => resume_skills.any (fun rs => strContains skill rs || strContains rs skill))
  let required_score : Rat :=
    if required_skills.isEmpty then 1 else (matching_required.length : Rat) / required_skills.length
  let preferred_score : Rat :=
    if preferred_skills.isEmpty then 1 else (matching_preferred.length : Rat) / preferred_skills.length
  let overall_score := required_score * 0.7 + preferred_score * 0.3
  { score := pyMin 1 overall_score
    matching_required := matching_required
    matching_preferred := matching_preferred
    missing_required := required_skills.filter (fun skill => !(matching_required.contains skill))
    missing_preferred := preferred_skills.filter (fun skill => !(matching_preferred.contains skill))
    total_matches := matching_required.length + matching_preferred.length }

/-- Result dict of `_calculate_keyword_match`; `keyword_density` is absent
(`none`) on the empty-keyword and exception branches. -/
structure KeywordMatch where
  score : Rat
  matching_keywords : List String
  missing_keywords : List String
  keyword_density : Option Rat
deriving DecidableEq

/-- `_calculate_keyword_match`: TF-IDF cosine similarity (the scikit-learn
collaborator, modelled by the `tfidf` parameter applied to the two lowered
documents; `none` is a vectorizer exception, caught by the source) plus
literal containment matching. -/
def calculate_keyword_match (tfidf : String → String → Option Rat)
    (resume_text : String) (job_analysis : JobAnalysis) : KeywordMatch :=
  let job_keywords := job_analysis.keywords.getD [] ++ job_analysis.ats_keywords
  if job_keywords.isEmpty then
    { score := 0, matching_keywords := [], missing_keywords := [], keyword_density := none }
  else
    match tfidf (lower resume_text) (lower (String.intercalate " " job_keywords)) with
    | none =>
      { score := 0, matching_keywords := [], missing_keywords := [], keyword_density := none }
    | some similarity =>
      let resume_lower := lower resume_text
      let matching_keywords := job_keywords.filter (fun kw => strContains resume_lower (lower kw))
      let missing_keywords := job_keywords.filter (fun kw => !(strContains resume_lower (lower kw)))
      { score := similarity
        matching_keywords := matching_keywords
        missing_keywords := missing_keywords
        keyword_density := some ((matching_keywords.length : Rat) / job_keywords.length) }

/-- The `level_mapping` table of `_calculate_experience_match`
(`none` as upper bound models `float('inf')`). -/
def level_mapping : List (String × (Rat × Option Rat)) :=
  [("entry", (0, some 2)), ("mid", (2, some 5)), ("senior", (5, some 10)),
   ("executive", (10, none))]

def le_opt (y : Rat) : Option Rat → Bool
  | none => true
  | some m => y ≤ m

def gt_opt (y : Rat) : Option Rat → Bool
  | none => false
  | some m => m < y

/-- The `score` variable of `_calculate_experience_match` (the level match):
neutral 0.5 when the level is unknown; within the band 1.0; above it 0.9;
below it linear partial credit `years / min`, or 0.3 when `min = 0`. -/
def level_match_score (required_level : String) (experience_years : Rat) : Rat :=
  match level_mapping.lookup required_level with
  | none => 0.5
  | some (min_years, max_years) =>
    if min_years ≤ experience_years && le_opt experience_years max_years then 1
    else if gt_opt experience_years max_years then 0.9
    else if experience_years < min_years then
      (if 0 < min_years then experience_years / min_years else 0.3)
    else 0.5

/-- The `industry_keywords` table of `_check_industry_relevance` (note `IT`
is uppercase in the source and is compared against lowered resume text, so it
can never match). -/
def industry_keywords : List (String × List String) :=
  [("technology", ["software", "tech", "programming", "development", "IT", "computer"]),
   ("finance", ["financial", "banking", "investment", "accounting", "fintech"]),
   ("healthcare", ["medical", "hospital", "health", "clinical", "pharmaceutical"]),
   ("education", ["school", "university", "teaching", "academic", "education"]),
   ("retail", ["retail", "sales", "customer", "store", "commerce"]),
   ("manufacturing", ["manufacturing", "production", "factory", "industrial"]),
   ("consulting", ["consulting", "advisory", "strategy", "management"])]

/-- `_check_industry_relevance`: empty target → 1.0; otherwise the fraction
of the looked-up keyword list found in the lowered resume text, capped at
1.0.  An unrecognized target falls back to `[target_industry]` itself as the
keyword list. -/
def check_industry_relevance (resume_data : ResumeData) (target_industry : String) : Rat :=
  if target_industry = "" then 1
  else
    let target_keywords := (industry_keywords.lookup (lower target_industry)).getD [target_industry]
    let resume_text := lower (extract_resume_text resume_data)
    let match_count := (target_keywords.filter (fun kw => strContains resume_text kw)).length
    pyMin 1 ((match_count : Rat) / target_keywords.length)

/-- Result dict of `_calculate_experience_match`. -/
structure ExperienceMatch where
  score : Rat
  years_experience : Rat
  required_level : String
  level_match : Rat
  industry_relevance : Rat
deriving DecidableEq

/-- `_calculate_experience_match`. -/
def calculate_experience_match (now : Int × Int) (resume_data : ResumeData)
    (job_analysis : JobAnalysis) : ExperienceMatch :=
  let experience_years := calculate_total_experience now resume_data
  let required_level := lower (job_analysis.experience_level.getD "unknown")
  let score := level_match_score required_level experience_years
  let industry_match := check_industry_relevance resume_data (job_analysis.industry.getD "")
  { score := score * 0.7 + industry_match * 0.3
    years_experience := experience_years
    required_level := required_level
    level_match := score
    industry_relevance := industry_match }

/-- Result dict of `_calculate_education_match`; the two early-return
branches carry only `score` and `requirements_met`. -/
structure EducationMatch where
  score : Rat
  requirements_met : Bool
  user_education_level : Option Nat
  required_level : Option Nat
deriving DecidableEq

/-- The `degree_levels` ordinal table. -/
def degree_levels : List (String × Nat) :=
  [("high school", 1), ("diploma", 1), ("certificate", 1), ("associate", 2),
   ("bachelor", 3), ("master", 4), ("mba", 4), ("phd", 5), ("doctorate", 5)]

/-- Highest table level whose name occurs in the lowered string, else 0
(the `max` accumulation of the source). -/
def max_degree_level (s : String) : Nat :=
  degree_levels.foldl (fun a p => if strContains (lower s) p.1 then pyMaxNat a p.2 else a) 0

/-- `_calculate_education_match`. -/
def calculate_education_match (resume_data : ResumeData) (job_analysis : JobAnalysis) :
    EducationMatch :=
  let education_requirements := job_analysis.education_requirements.getD []
  let user_education := resume_data.education
  if education_requirements.isEmpty then
    { score := 1, requirements_met := true, user_education_level := none, required_level := none }
  else if user_education.isEmpty then
    { score := 0, requirements_met := false, user_education_level := none, required_level := none }
  else
    let user_max_level := user_education.foldl (fun a edu => pyMaxNat a (max_degree_level edu.degree)) 0
    let required_level := education_requirements.foldl (fun a req => pyMaxNat a (max_degree_level req)) 0
    let score : Rat :=
      if 0 < required_level then pyMin 1 ((user_max_level : Rat) / required_level) else 1
    { score := score
      requirements_met := required_level ≤ user_max_level
      user_education_level := some user_max_level
      required_level := some required_level }

/-- The fixed action-verb list of `_calculate_ats_score`. -/
def ats_action_verbs : List String :=
  ["managed", "led", "developed", "created", "improved", "increased", "decreased",
   "implemented"]

def ats_standard_headers : List String := ["experience", "education", "skills", "summary"]

/-- `_calculate_ats_score`: five additive heuristic checks, capped at 1.0. -/
def calculate_ats_score (resume_text : String) (job_analysis : JobAnalysis) : Rat :=
  let keywords := job_analysis.keywords.getD [] ++ job_analysis.ats_keywords
  let score1 : Rat :=
    if !keywords.isEmpty then
      let keyword_matches :=
        (keywords.filter (fun kw => strContains (lower resume_text) (lower kw))).length
      ((keyword_matches : Rat) / keywords.length) * 0.3
    else 0.3
  let score2 : Rat := if 200 < resume_text.length then 0.2 else 0
  let header_matches :=
    (ats_standard_headers.filter (fun h => strContains (lower resume_text) h)).length
  let score3 : Rat := ((header_matches : Rat) / ats_standard_headers.length) * 0.2
  let numbers := count_number_matches resume_text
  let score4 : Rat := if 3 ≤ numbers then 0.15 else if 1 ≤ numbers then 0.1 else 0
  let verb_matches :=
    (ats_action_verbs.filter (fun v => strContains (lower resume_text) v)).length
  let score5 : Rat := if 3 ≤ verb_matches then 0.15 else if 1 ≤ verb_matches then 0.1 else 0
  pyMin 1 (score1 + score2 + score3 + score4 + score5)

/-! ## Recommendations and the aggregator -/

/-- The fixed fallback list of `_generate_match_recommendations`. -/
def default_recommendations : List String :=
  ["Add more relevant keywords from the job description to your resume",
   "Quantify your achievements with specific numbers and metrics",
   "Ensure your skills section includes the required technical skills",
   "Tailor your professional summary to match the job requirements",
   "Include industry-specific terminology in your experience descriptions"]

/-- `_generate_match_recommendations`: the parsed recommendation list of the
generative-text collaborator on success (a response whose JSON lacks the
`recommendations` key is `some []`, the `.get` default), the fixed five-item
list on any failure. -/
def generate_match_recommendations (recs : Option (List String)) : List String :=
  match recs with
  | some r => r
  | none => default_recommendations

/-- The four named entries of `score_breakdown`. -/
structure ScoreBreakdown where
  skills : Rat
  keywords : Rat
  experience : Rat
  education : Rat
deriving DecidableEq

/-- The `detailed_analysis` entry of the match result. -/
structure DetailedAnalysis where
  skill_match : SkillMatch
  keyword_match : KeywordMatch
  experience_match : ExperienceMatch
  education_match : EducationMatch
deriving DecidableEq

/-- The dict returned by `match_resume_to_job`.  `score_breakdown`,
`detailed_analysis` and `job_analysis` are `Option`s because the `except`
branch returns a dict with an empty `score_breakdown` and without the
`detailed_analysis` and `job_analysis` keys. -/
structure MatchResult where
  overall_score : Rat
  score_breakdown : Option ScoreBreakdown
  detailed_analysis : Option DetailedAnalysis
  ats_score : Rat
  recommendations : List String
  missing_skills : List String
  matching_keywords : List String
  missing_keywords : List String
  job_analysis : Option JobAnalysis
deriving DecidableEq

/-- The dict literal of the `except` branch of `match_resume_to_job`. -/
def fallback_match_result : MatchResult :=
  { overall_score := 0
    score_breakdown := none
    detailed_analysis := none
    ats_score := 0
    recommendations := ["Unable to analyze resume match. Please try again."]
    missing_skills := []
    matching_keywords := []
    missing_keywords := []
    job_analysis := none }

/-- The success path of `match_resume_to_job`, once
`job_analysis['required_skills']` is known to be present with value `req`. -/
def match_success (tfidf : String → String → Option Rat) (now : Int × Int)
    (recs : Option (List String)) (resume_data : ResumeData)
    (job_analysis : JobAnalysis) (req : List String) : MatchResult :=
  let resume_text := extract_resume_text resume_data
  let skill_match := calculate_skill_match resume_data job_analysis
  let keyword_match := calculate_keyword_match tfidf resume_text job_analysis
  let experience_match := calculate_experience_match now resume_data job_analysis
  let education_match := calculate_education_match resume_data job_analysis
  let overall_score :=
    skill_match.score * 0.35 + keyword_match.score * 0.25 +
    experience_match.score * 0.25 + education_match.score * 0.15
  let recommendations := generate_match_recommendations recs
  let ats_score := calculate_ats_score resume_text job_analysis
  { overall_score := overall_score
    score_breakdown := some
      { skills := skill_match.score
        keywords := keyword_match.score
        experience := experience_match.score
        education := education_match.score }
    detailed_analysis := some
      { skill_match := skill_match
        keyword_match := keyword_match
        experience_match := experience_match
        education_match := education_match }
    ats_score := ats_score
    recommendations := recommendations
    missing_skills := req
    matching_keywords := keyword_match.matching_keywords
    missing_keywords := keyword_match.missing_keywords
    job_analysis := some job_analysis }

/-- `match_resume_to_job`: analyzes the job description, runs the four
matchers and the ATS scorer, and assembles the report.  The one unguarded
dict access of the source, `job_analysis['required_skills']`, raises a
`KeyError` when the parsed extraction response lacks that key; the outer
`except` then returns the fallback dict. -/
def match_resume_to_job (tfidf : String → String → Option Rat) (now : Int × Int)
    (ai : Option AIResponse) (recs : Option (List String))
    (resume_data : ResumeData) (job_description : String) : MatchResult :=
  match (analyze_job_description ai job_description).required_skills with
  | none => fallback_match_result
  | some req =>
    match_success tfidf now recs resume_data (analyze_job_description ai job_description) req

/-! ## The rule-based extractor of `local_ai_backup.py`
(`LocalAIBackup.analyze_job_posting`) -/

/-- The `skill_categories` vocabulary of `LocalAIBackup`, in dict insertion
order. -/
def skill_categories : List (String × List String) :=
  [("technical",
    ["Python", "JavaScript", "SQL", "React", "Node.js", "AWS", "Docker", "Git",
     "Linux", "MongoDB", "PostgreSQL", "API Development"]),
   ("business",
    ["Project Management", "Strategic Planning", "Business Analysis",
     "Market Research", "Financial Analysis", "Leadership", "Communication"]),
   ("creative",
    ["Graphic Design", "UI/UX Design", "Content Creation", "Brand Management",
     "Social Media Marketing", "Video Editing", "Adobe Creative Suite"])]

/-- The stop-word set of `LocalAIBackup._extract_keywords_from_text`. -/
def backup_stop_words : List String :=
  ["the", "and", "for", "are", "but", "not", "you", "all", "can", "had",
   "her", "was", "one", "our", "out", "day", "get", "has", "him", "his",
   "how", "its", "may", "new", "now", "old", "see", "two", "who", "will",
   "with", "have", "from", "they", "know", "want", "been", "good", "much",
   "some", "time", "very", "when", "come", "here", "just", "like", "long",
   "make", "many", "over", "such", "take", "than", "them", "well", "were"]

/-- `LocalAIBackup._extract_keywords_from_text` (dedup order models the
arbitrary Python set order by first occurrence). -/
def extract_keywords_from_text (text : String) : List String :=
  let words := findall_alpha3 (lower text)
  let keywords := words.filter (fun w => !(backup_stop_words.contains w) && decide (w.length > 3))
  keywords.eraseDups.take 15

/-- The industry table of `LocalAIBackup.analyze_job_posting`, in dict
insertion order. -/
def backup_industry_keywords : List (String × List String) :=
  [("technology", ["software", "tech", "IT", "development"]),
   ("finance", ["financial", "banking", "investment"]),
   ("healthcare", ["medical", "health", "clinical"]),
   ("education", ["teaching", "academic", "school"])]

/-- Result dict of `LocalAIBackup.analyze_job_posting`. -/
structure JobPostingAnalysis where
  required_skills : List String
  preferred_skills : List String
  requirements : List String
  experience_level : String
  industry : String
  keywords : List String
deriving DecidableEq

/-- `LocalAIBackup.analyze_job_posting`: the deterministic rule-based
extractor — level indicators in fixed priority order with default `mid`,
curated skill vocabulary by substring match, first-match industry table with
default `general`. -/
def analyze_job_posting (job_description : String) : JobPostingAnalysis :=
  let text_lower := lower job_description
  let experience_level :=
    if ["entry", "junior", "0-2 years"].any (fun t => strContains text_lower t) then "entry"
    else if ["senior", "lead", "principal", "5+ years"].any (fun t => strContains text_lower t) then
      "senior"
    else if ["executive", "director", "vp", "10+ years"].any (fun t => strContains text_lower t) then
      "executive"
    else "mid"
  let skill_keywords :=
    (skill_categories.flatMap (fun p => p.2)).filter
      (fun skill => strContains text_lower (lower skill))
  let requirements :=
    (if strContains text_lower "degree" || strContains text_lower "bachelor" then
      ["Bachelor\x27s degree required"] else []) ++
    (if strContains text_lower "experience" then ["Relevant work experience"] else []) ++
    (if strContains text_lower "certification" then
      ["Professional certifications preferred"] else [])
  let industry :=
    ((backup_industry_keywords.find?
        (fun p => p.2.any (fun kw => strContains text_lower kw))).map (fun p => p.1)).getD
      "general"
  { required_skills := skill_keywords.take 10
    preferred_skills := (skill_keywords.drop 5).take 5
    requirements := requirements
    experience_level := experience_level
    industry := industry
    keywords := extract_keywords_from_text job_description }

/-! ## Concrete inputs used by counterexamples and witnesses -/

/-- A parsed extraction response that is a valid JSON object with none of the
documented keys (e.g. the model answered `{}`). -/
def empty_ai_response : AIResponse := {}

/-- A resume with no content at all. -/
def resume_empty : ResumeData := {}

/-- A TF-IDF collaborator that always succeeds with similarity 1/2. -/
def tfidf_half : String → String → Option Rat := fun _ _ => some (mkRat 1 2)

/-- A TF-IDF collaborator that always raises. -/
def tfidf_fail : String → String → Option Rat := fun _ _ => none

/-- A fixed evaluation time for `datetime.now()`. -/
def now_2025 : Int × Int := (2025, 10)

/-- The end-to-end scenario resume of the specification (work dates in the
`YYYY-MM` form the spec prescribes). -/
def resume_c9 : ResumeData :=
  { skills := ["Python", "SQL"]
    experience := [{ job_title := "Data Analyst", company := "X", start_date := "2020-01",
                     end_date := "2023-01", is_current := false,
                     description := "Led reporting initiatives, increased efficiency 20%" }]
    education := [{ degree := "Bachelor", field_of_study := "Statistics", institution := "Y",
                    graduation_date := "2019-06-01" }] }

/-- The same scenario resume with day-precision `YYYY-MM-DD` work dates. -/
def resume_c9_day_dates : ResumeData :=
  { resume_c9 with
    experience := [{ job_title := "Data Analyst", company := "X", start_date := "2020-01-01",
                     end_date := "2023-01-01", is_current := false,
                     description := "Led reporting initiatives, increased efficiency 20%" }] }

/-- The job analysis of the end-to-end scenario: required `Python, SQL, AWS`,
no preferred skills, experience level `mid`. -/
def ja_c9 : JobAnalysis :=
  { required_skills := some ["Python", "SQL", "AWS"]
    preferred_skills := some []
    experience_level := some "mid" }

/-- A resume with exactly 6.0 years of continuous experience
(2017-01-01 to 2023-01-01 is 72 months). -/
def resume_six_years : ResumeData :=
  { experience := [{ job_title := "Engineer", company := "Acme", start_date := "2017-01-01",
                     end_date := "2023-01-01", is_current := false, description := "" }] }

def ja_senior : JobAnalysis := { experience_level := some "senior" }

def ja_entry : JobAnalysis := { experience_level := some "entry" }

/-- An extraction response whose required-skill list is fully covered by
`resume_two_skills`. -/
def ai_two_skills : AIResponse := { required_skills := some ["Python", "SQL"] }

def resume_two_skills : ResumeData := { skills := ["Python", "SQL"] }

/-! ## Helper lemmas -/

theorem pyMin_one_le_one (x : Rat) : pyMin 1 x ≤ 1 := by
  unfold pyMin
  split
  · exact le_refl 1
  · exact le_of_lt (lt_of_not_le (by assumption))

theorem pyMin_one_nonneg (x : Rat) (hx : 0 ≤ x) : 0 ≤ pyMin 1 x := by
  unfold pyMin
  split
  · exact zero_le_one
  · exact hx

theorem ratio_nonneg (a b : Nat) : 0 ≤ ((a : Rat) / (b : Rat)) :=
  div_nonneg (by positivity) (by positivity)

theorem ratio_le_one (a b : Nat) (h : a ≤ b) : ((a : Rat) / (b : Rat)) ≤ 1 := by
  rcases Nat.eq_zero_or_pos b with hb | hb
  · subst hb
    interval_cases a
    simp
  · rw [div_le_one (by exact_mod_cast hb)]
    exact_mod_cast h

theorem filter_ratio_nonneg {α : Type} (l : List α) (p : α → Bool) :
    0 ≤ (((l.filter p).length : Rat) / (l.length : Rat)) :=
  ratio_nonneg _ _

theorem filter_ratio_le_one {α : Type} (l : List α) (p : α → Bool) :
    (((l.filter p).length : Rat) / (l.length : Rat)) ≤ 1 :=
  ratio_le_one _ _ (List.length_filter_le p l)

theorem match_resume_to_job_of_none {tfidf : String → String → Option Rat}
    {now : Int × Int} {ai : Option AIResponse} {recs : Option (List String)}
    {resume : ResumeData} {jd : String}
    (h : (analyze_job_description ai jd).required_skills = none) :
    match_resume_to_job tfidf now ai recs resume jd = fallback_match_result := by
  unfold match_resume_to_job
  rw [h]

theorem match_resume_to_job_of_some {tfidf : String → String → Option Rat}
    {now : Int × Int} {ai : Option AIResponse} {recs : Option (List String)}
    {resume : ResumeData} {jd : String} {req : List String}
    (h : (analyze_job_description ai jd).required_skills = some req) :
    match_resume_to_job tfidf now ai recs resume jd =
      match_success tfidf now recs resume (analyze_job_description ai jd) req := by
  unfold match_resume_to_job
  rw [h]

theorem ite_one_ratio_nonneg (c : Prop) [Decidable c] (a b : Nat) :
    0 ≤ (if c then (1 : Rat) else (a : Rat) / (b : Rat)) := by
  split
  · norm_num
  · exact ratio_nonneg a b

theorem calculate_skill_match_score_nonneg (r : ResumeData) (ja : JobAnalysis) :
    0 ≤ (calculate_skill_match r ja).score := by
  dsimp only [calculate_skill_match]
  apply pyMin_one_nonneg
  apply add_nonneg <;> apply mul_nonneg
  · exact ite_one_ratio_nonneg _ _ _
  · norm_num
  · exact ite_one_ratio_nonneg _ _ _
  · norm_num

theorem calculate_skill_match_score_le_one (r : ResumeData) (ja : JobAnalysis) :
    (calculate_skill_match r ja).score ≤ 1 := by
  dsimp only [calculate_skill_match]
  exact pyMin_one_le_one _

theorem pyMaxInt_zero_nonneg (x : Int) : 0 ≤ pyMaxInt 0 x := by
  unfold pyMaxInt
  split
  · exact le_of_lt (by assumption)
  · exact le_refl 0

theorem entry_months_nonneg (now : Int × Int) (e : ExperienceEntry) :
    0 ≤ entry_months now e := by
  unfold entry_months
  rcases parse_iso_date e.start_date with _ | ⟨sy, sm⟩
  · exact le_refl 0
  · dsimp only
    split
    · rcases parse_iso_date e.end_date with _ | ⟨ey, em⟩
      · exact le_refl 0
      · exact pyMaxInt_zero_nonneg _
    · exact pyMaxInt_zero_nonneg _

theorem foldl_add_int_nonneg (l : List Int) (h : ∀ x ∈ l, 0 ≤ x) :
    ∀ acc : Int, 0 ≤ acc → 0 ≤ l.foldl (· + ·) acc := by
  induction l with
  | nil => intro acc ha; exact ha
  | cons x t ih =>
    intro acc ha
    simp only [List.foldl]
    exact ih (fun y hy => h y (List.mem_cons_of_mem x hy))
      _ (add_nonneg ha (h x (List.mem_cons_self x t)))

theorem round_half_even_nonneg (q : Rat) (h : 0 ≤ q) : 0 ≤ round_half_even q := by
  unfold round_half_even
  dsimp only
  have hf : (0 : Int) ≤ q.floor := Rat.le_floor.2 (by exact_mod_cast h)
  split
  · exact hf
  · split
    · omega
    · split
      · exact hf
      · omega

theorem py_round1_nonneg (q : Rat) (h : 0 ≤ q) : 0 ≤ py_round1 q := by
  unfold py_round1
  apply div_nonneg _ (by norm_num)
  exact_mod_cast round_half_even_nonneg _ (by positivity)

theorem calculate_total_experience_nonneg (now : Int × Int) (r : ResumeData) :
    0 ≤ calculate_total_experience now r := by
  dsimp only [calculate_total_experience]
  apply py_round1_nonneg
  apply div_nonneg _ (by norm_num)
  have := foldl_add_int_nonneg (r.experience.map (entry_months now))
    (by
      intro x hx
      rcases List.mem_map.1 hx with ⟨e, _, he⟩
      exact he ▸ entry_months_nonneg now e)
    0 (le_refl 0)
  exact_mod_cast this

theorem level_match_score_nonneg (lvl : String) (y : Rat) (hy : 0 ≤ y) :
    0 ≤ level_match_score lvl y := by
  unfold level_match_score
  rcases h : level_mapping.lookup lvl with _ | ⟨mn, mx⟩
  · norm_num
  · dsimp only
    split
    · norm_num
    · split
      · norm_num
      · split
        · split
          · exact div_nonneg hy (le_of_lt (by assumption))
          · norm_num
        · norm_num

theorem level_match_score_le_one (lvl : String) (y : Rat) (_hy : 0 ≤ y) :
    level_match_score lvl y ≤ 1 := by
  unfold level_match_score
  rcases h : level_mapping.lookup lvl with _ | ⟨mn, mx⟩
  · norm_num
  · dsimp only
    split
    · exact le_refl 1
    · split
      · norm_num
      · split
        · split
          · rw [div_le_one (by assumption)]
            exact le_of_lt (by assumption)
          · norm_num
        · norm_num

theorem check_industry_relevance_nonneg (r : ResumeData) (t : String) :
    0 ≤ check_industry_relevance r t := by
  unfold check_industry_relevance
  split
  · norm_num
  · exact pyMin_one_nonneg _ (ratio_nonneg _ _)

theorem check_industry_relevance_le_one (r : ResumeData) (t : String) :
    check_industry_relevance r t ≤ 1 := by
  unfold check_industry_relevance
  split
  · exact le_refl 1
  · exact pyMin_one_le_one _

theorem calculate_experience_match_score_nonneg (now : Int × Int) (r : ResumeData)
    (ja : JobAnalysis) : 0 ≤ (calculate_experience_match now r ja).score := by
  dsimp only [calculate_experience_match]
  have h1 := level_match_score_nonneg (lower (ja.experience_level.getD "unknown"))
    (calculate_total_experience now r) (calculate_total_experience_nonneg now r)
  have h2 := check_industry_relevance_nonneg r (ja.industry.getD "")
  nlinarith [h1, h2]

theorem calculate_experience_match_score_le_one (now : Int × Int) (r : ResumeData)
    (ja : JobAnalysis) : (calculate_experience_match now r ja).score ≤ 1 := by
  dsimp only [calculate_experience_match]
  have h1 := level_match_score_le_one (lower (ja.experience_level.getD "unknown"))
    (calculate_total_experience now r) (calculate_total_experience_nonneg now r)
  have h2 := check_industry_relevance_le_one r (ja.industry.getD "")
  nlinarith [h1, h2]

theorem calculate_education_match_score_nonneg (r : ResumeData) (ja : JobAnalysis) :
    0 ≤ (calculate_education_match r ja).score := by
  dsimp only [calculate_education_match]
  split
  · norm_num
  · split
    · norm_num
    · dsimp only
      split
      · exact pyMin_one_nonneg _ (ratio_nonneg _ _)
      · norm_num

theorem calculate_education_match_score_le_one (r : ResumeData) (ja : JobAnalysis) :
    (calculate_education_match r ja).score ≤ 1 := by
  dsimp only [calculate_education_match]
  split
  · norm_num
  · split
    · norm_num
    · dsimp only
      split
      · exact pyMin_one_le_one _
      · norm_num

theorem calculate_keyword_match_score_bounds (tfidf : String → String → Option Rat)
    (htf : ∀ a b v, tfidf a b = some v → 0 ≤ v ∧ v ≤ 1)
    (resume_text : String) (ja : JobAnalysis) :
    0 ≤ (calculate_keyword_match tfidf resume_text ja).score ∧
      (calculate_keyword_match tfidf resume_text ja).score ≤ 1 := by
  dsimp only [calculate_keyword_match]
  split
  · constructor <;> norm_num
  · split
    · constructor <;> norm_num
    · rename_i v h
      exact htf _ _ v h

theorem calculate_ats_score_nonneg (resume_text : String) (ja : JobAnalysis) :
    0 ≤ calculate_ats_score resume_text ja := by
  dsimp only [calculate_ats_score]
  apply pyMin_one_nonneg
  apply add_nonneg
  apply add_nonneg
  apply add_nonneg
  apply add_nonneg
  · split
    · apply mul_nonneg (ratio_nonneg _ _) (by norm_num)
    · norm_num
  · split <;> norm_num
  · apply mul_nonneg (ratio_nonneg _ _) (by norm_num)
  · split
    · norm_num
    · split <;> norm_num
  · split
    · norm_num
    · split <;> norm_num

theorem calculate_ats_score_le_one (resume_text : String) (ja : JobAnalysis) :
    calculate_ats_score resume_text ja ≤ 1 := by
  dsimp only [calculate_ats_score]
  exact pyMin_one_le_one _

/-! ## Claim theorems -/

/-- C4 counterexample: on extraction failure, `analyze_job_description`
returns `experience_level = "unknown"` and `industry = "unknown"`, while the
rule-based extractor described by the claim (`analyze_job_posting`) returns
its defaults `"mid"` and `"general"` on the same input — the fallback is not
the rule-based extractor. -/
theorem C4_counterexample :
    (analyze_job_description none "").experience_level = some "unknown" ∧
    (analyze_job_posting "").experience_level = "mid" ∧
    (analyze_job_description none "").industry = some "unknown" ∧
    (analyze_job_posting "").industry = "general" ∧
    (analyze_job_description none "").experience_level ≠
      some ((analyze_job_posting "").experience_level) := by
  decide

/-- C4 amended: when the generative-text extraction call fails,
`analyze_job_description` returns the fixed all-default `JobAnalysis`
(`experience_level "unknown"`, `industry "unknown"`, empty lists); the
deterministic rule-based extractor with the level/skill/industry inference
rules the claim describes is `LocalAIBackup.analyze_job_posting`, which
`analyze_job_description` does not invoke: there, an entry-level indicator
wins over the later tiers, no indicator at all defaults to `"mid"`, and no
industry keyword defaults to `"general"`. -/
theorem C4_amended (jd : String) :
    analyze_job_description none jd = default_job_analysis ∧
    ((["entry", "junior", "0-2 years"].any (fun t => strContains (lower jd) t)) = true →
      (analyze_job_posting jd).experience_level = "entry") ∧
    ((["entry", "junior", "0-2 years"].any (fun t => strContains (lower jd) t)) = false →
     (["senior", "lead", "principal", "5+ years"].any
        (fun t => strContains (lower jd) t)) = false →
     (["executive", "director", "vp", "10+ years"].any
        (fun t => strContains (lower jd) t)) = false →
      (analyze_job_posting jd).experience_level = "mid") ∧
    ((∀ p ∈ backup_industry_keywords,
        p.2.any (fun kw => strContains (lower jd) kw) = false) →
      (analyze_job_posting jd).industry = "general") := by
  refine ⟨rfl, ?_, ?_, ?_⟩
  · intro h
    simp [analyze_job_posting, h]
  · intro h1 h2 h3
    simp [analyze_job_posting, h1, h2, h3]
  · intro h
    have hf : backup_industry_keywords.find?
        (fun p => p.2.any (fun kw => strContains (lower jd) kw)) = none :=
      List.find?_eq_none.2 (fun p hp => by simp [h p hp])
    simp [analyze_job_posting, hf]

/-- C4 witness: the amended theorem applied at a description with no
indicators (default `mid`/`general`) and at one where an entry indicator
coexists with a senior indicator (first match wins). -/
theorem C4_amended_witness :
    (analyze_job_posting "general role").experience_level = "mid" ∧
    (analyze_job_posting "general role").industry = "general" ∧
    (analyze_job_posting "junior role, senior team").experience_level = "entry" :=
  ⟨(C4_amended "general role").2.2.1 (by decide) (by decide) (by decide),
   (C4_amended "general role").2.2.2 (by decide),
   (C4_amended "junior role, senior team").2.1 (by decide)⟩

/-- C6 counterexample: on extraction failure the returned `ats_keywords` and
`word_frequency` are the hard-coded empty defaults, not the values of the
deterministic analyses, which are nonempty on these inputs. -/
theorem C6_counterexample :
    (analyze_job_description none "AWS").ats_keywords = [] ∧
    extract_ats_keywords "AWS" = ["AWS"] ∧
    (analyze_job_description none "cloud engineering cloud").word_frequency = [] ∧
    analyze_word_frequency "cloud engineering cloud" =
      [("cloud", 2), ("engineering", 1)] := by
  decide

/-- C6 amended: `word_frequency` and `ats_keywords` are computed by the
deterministic path whenever the generative-text extraction succeeded; when it
failed, the fallback returns them empty (`{}` and `[]`) without running the
deterministic analyses. -/
theorem C6_amended (a : AIResponse) (jd : String) :
    (analyze_job_description (some a) jd).word_frequency = analyze_word_frequency jd ∧
    (analyze_job_description (some a) jd).ats_keywords = extract_ats_keywords jd ∧
    (analyze_job_description none jd).word_frequency = [] ∧
    (analyze_job_description none jd).ats_keywords = [] :=
  ⟨rfl, rfl, rfl, rfl⟩

/-- C8: evaluation at the failing input.  `"job"` is an alphabetic non-stop
token of length exactly 3, the tokenizing regex yields it, yet the frequency
map is empty, because the source filters with `len(word) > 3` (strict),
making every length-3 token — and with it the entire 3-letter stop-word
set — dead. -/
theorem C8_tokenizer_evaluation :
    analyze_word_frequency "job job job" = [] ∧
    findall_alpha3 (lower "job job job") = ["job", "job", "job"] ∧
    stop_words.contains "job" = false ∧
    "job".length = 3 ∧
    stop_words.all (fun w => w.length = 3) = true ∧
    analyze_word_frequency "" = [] := by
  decide

/-- C9 counterexample: in the end-to-end scenario the skill sub-score is
23/30 ≈ 0.767 (not ≈ 0.667: the empty preferred tier contributes its vacuous
0.3), and the scenario's `YYYY-MM` work dates are rejected by
`datetime.fromisoformat`, so the computed years are 0.0 (not 3.0) and
`level_match` is 0.0 (not 1.0). -/
theorem C9_counterexample :
    (calculate_skill_match resume_c9 ja_c9).score = mkRat 23 30 ∧
    mkRat 1 20 ≤ mkRat 23 30 - mkRat 667 1000 ∧
    calculate_total_experience now_2025 resume_c9 = 0 ∧
    (calculate_experience_match now_2025 resume_c9 ja_c9).level_match = 0 := by
  decide

/-- C9 amended: in the end-to-end scenario 2 of 3 required skills match
(required ratio 2/3 ≈ 0.667) but the skill sub-score is
0.7·(2/3) + 0.3·1.0 = 23/30 ≈ 0.767 because the empty preferred tier scores
1.0; with the scenario's `YYYY-MM` dates the experience entry is skipped as
unparsable, giving 0.0 years and `level_match` 0.0, while the intended
3.0 years and `level_match` 1.0 only arise for day-precision `YYYY-MM-DD`
dates. -/
theorem C9_amended :
    (calculate_skill_match resume_c9 ja_c9).matching_required = ["python", "sql"] ∧
    (((calculate_skill_match resume_c9 ja_c9).matching_required.length : Rat) / 3 =
      mkRat 2 3) ∧
    (calculate_skill_match resume_c9 ja_c9).score = mkRat 23 30 ∧
    calculate_total_experience now_2025 resume_c9 = 0 ∧
    (calculate_experience_match now_2025 resume_c9 ja_c9).level_match = 0 ∧
    calculate_total_experience now_2025 resume_c9_day_dates = 3 ∧
    (calculate_experience_match now_2025 resume_c9_day_dates ja_c9).level_match = 1 := by
  decide

/-- C1 counterexample: a collaborator response that parses but lacks the
`required_skills` key (valid JSON `{}`) drives `match_resume_to_job` into its
`except` fallback — the caller receives the degraded dict with an empty
`score_breakdown` and no `job_analysis`, so the report is not complete. -/
theorem C1_counterexample :
    match_resume_to_job tfidf_half now_2025 (some empty_ai_response) none resume_empty
      "desc" = fallback_match_result ∧
    (match_resume_to_job tfidf_half now_2025 (some empty_ai_response) none resume_empty
      "desc").score_breakdown = none ∧
    (match_resume_to_job tfidf_half now_2025 (some empty_ai_response) none resume_empty
      "desc").job_analysis = none := by
  decide

/-- C1 amended: `match_resume_to_job` never raises: it returns the complete
success report (the four named breakdown entries, `ats_score`,
`recommendations`, `missing_skills`, `matching_keywords`, `missing_keywords`
and `job_analysis` all present) whenever the job analysis contains
`required_skills` — in particular always when the extraction collaborator
failed, since the all-default fallback analysis carries
`required_skills = []` — and returns the fixed degraded fallback dict when a
parsed collaborator response lacks `required_skills`.
`analyze_job_description` likewise never raises and returns at worst the
all-default `JobAnalysis`. -/
theorem C1_amended (tfidf : String → String → Option Rat) (now : Int × Int)
    (ai : Option AIResponse) (recs : Option (List String)) (resume : ResumeData)
    (jd : String) :
    (∀ req, (analyze_job_description ai jd).required_skills = some req →
      match_resume_to_job tfidf now ai recs resume jd =
        match_success tfidf now recs resume (analyze_job_description ai jd) req ∧
      (match_resume_to_job tfidf now ai recs resume jd).score_breakdown.isSome = true ∧
      (match_resume_to_job tfidf now ai recs resume jd).detailed_analysis.isSome = true ∧
      (match_resume_to_job tfidf now ai recs resume jd).job_analysis =
        some (analyze_job_description ai jd)) ∧
    ((analyze_job_description ai jd).required_skills = none →
      match_resume_to_job tfidf now ai recs resume jd = fallback_match_result) ∧
    analyze_job_description none jd = default_job_analysis ∧
    default_job_analysis.required_skills = some [] := by
  refine ⟨?_, ?_, rfl, rfl⟩
  · intro req h
    have he := @match_resume_to_job_of_some tfidf now ai recs resume jd req h
    refine ⟨he, ?_, ?_, ?_⟩ <;> rw [he] <;> rfl
  · intro h
    exact @match_resume_to_job_of_none tfidf now ai recs resume jd h

/-- C1 witness: the amended theorem applied at a concrete input whose
extraction response does carry `required_skills`. -/
theorem C1_amended_witness :
    (analyze_job_description (some ai_two_skills) "x").required_skills =
      some ["Python", "SQL"] ∧
    (match_resume_to_job tfidf_half now_2025 (some ai_two_skills) none resume_two_skills
      "x").job_analysis = some (analyze_job_description (some ai_two_skills) "x") ∧
    (match_resume_to_job tfidf_half now_2025 (some ai_two_skills) none resume_two_skills
      "x").score_breakdown.isSome = true :=
  ⟨rfl,
   ((C1_amended tfidf_half now_2025 (some ai_two_skills) none resume_two_skills "x").1
     ["Python", "SQL"] rfl).2.2.2,
   ((C1_amended tfidf_half now_2025 (some ai_two_skills) none resume_two_skills "x").1
     ["Python", "SQL"] rfl).2.1⟩

/-- C2: on the success path the overall score is exactly the fixed convex
combination 0.35/0.25/0.25/0.15 of the four `score_breakdown` entries, and
those weights sum to 1. -/
theorem C2_weight_invariant (tfidf : String → String → Option Rat) (now : Int × Int)
    (ai : Option AIResponse) (recs : Option (List String)) (resume : ResumeData)
    (jd : String) :
    (∀ b, (match_resume_to_job tfidf now ai recs resume jd).score_breakdown = some b →
      (match_resume_to_job tfidf now ai recs resume jd).overall_score =
        0.35 * b.skills + 0.25 * b.keywords + 0.25 * b.experience + 0.15 * b.education) ∧
    (0.35 : Rat) + 0.25 + 0.25 + 0.15 = 1 := by
  constructor
  · intro b hb
    rcases h : (analyze_job_description ai jd).required_skills with _ | req
    · rw [@match_resume_to_job_of_none tfidf now ai recs resume jd h] at hb
      exact absurd hb (by simp [fallback_match_result])
    · have he := @match_resume_to_job_of_some tfidf now ai recs resume jd req h
      rw [he] at hb ⊢
      dsimp only [match_success] at hb ⊢
      injection hb with hb
      rw [← hb]
      dsimp only
      ring
  · norm_num

/-- C2 witness: the weight invariant applied at a concrete input, with the
concrete breakdown recovered through `Option.getD`. -/
theorem C2_weight_invariant_witness :
    (match_resume_to_job tfidf_half now_2025 (some ai_two_skills) none resume_two_skills
      "x").score_breakdown =
      some ((match_resume_to_job tfidf_half now_2025 (some ai_two_skills) none
        resume_two_skills "x").score_breakdown.getD ⟨0, 0, 0, 0⟩) ∧
    (match_resume_to_job tfidf_half now_2025 (some ai_two_skills) none resume_two_skills
      "x").overall_score =
      0.35 * ((match_resume_to_job tfidf_half now_2025 (some ai_two_skills) none
        resume_two_skills "x").score_breakdown.getD ⟨0, 0, 0, 0⟩).skills +
      0.25 * ((match_resume_to_job tfidf_half now_2025 (some ai_two_skills) none
        resume_two_skills "x").score_breakdown.getD ⟨0, 0, 0, 0⟩).keywords +
      0.25 * ((match_resume_to_job tfidf_half now_2025 (some ai_two_skills) none
        resume_two_skills "x").score_breakdown.getD ⟨0, 0, 0, 0⟩).experience +
      0.15 * ((match_resume_to_job tfidf_half now_2025 (some ai_two_skills) none
        resume_two_skills "x").score_breakdown.getD ⟨0, 0, 0, 0⟩).education :=
  ⟨by decide,
   (C2_weight_invariant tfidf_half now_2025 (some ai_two_skills) none resume_two_skills
     "x").1 _ (by decide)⟩

/-- C10: the `missing_skills` field of every success-path report is the
entire `required_skills` list of the job analysis, for every resume — the
skill matcher's `missing_required` list is not consulted. -/
theorem C10_missing_skills (tfidf : String → String → Option Rat) (now : Int × Int)
    (recs : Option (List String)) (resume : ResumeData) (jd : String)
    (a : AIResponse) (req : List String) (h : a.required_skills = some req) :
    (match_resume_to_job tfidf now (some a) recs resume jd).missing_skills = req := by
  have hj : (analyze_job_description (some a) jd).required_skills = some req := h
  rw [@match_resume_to_job_of_some tfidf now (some a) recs resume jd req hj]
  rfl

/-- C10 witness: a resume matching every required skill still gets the full
required list as `missing_skills`, while the skill matcher's own
`missing_required` is empty. -/
theorem C10_missing_skills_witness :
    ai_two_skills.required_skills = some ["Python", "SQL"] ∧
    (match_resume_to_job tfidf_half now_2025 (some ai_two_skills) none resume_two_skills
      "x").missing_skills = ["Python", "SQL"] ∧
    (calculate_skill_match resume_two_skills
      (analyze_job_description (some ai_two_skills) "x")).missing_required = [] :=
  ⟨rfl,
   C10_missing_skills tfidf_half now_2025 none resume_two_skills "x" ai_two_skills
     ["Python", "SQL"] rfl,
   by decide⟩

/-- C3: for every input and every TF-IDF collaborator whose similarities lie
in [0,1] (the mathematical range of cosine similarity on non-negative
vectors), the overall score, each present `score_breakdown` entry, and the
ATS score lie in [0,1]. -/
theorem C3_bounds (tfidf : String → String → Option Rat) (now : Int × Int)
    (ai : Option AIResponse) (recs : Option (List String)) (resume : ResumeData)
    (jd : String) (htf : ∀ a b v, tfidf a b = some v → 0 ≤ v ∧ v ≤ 1) :
    (0 ≤ (match_resume_to_job tfidf now ai recs resume jd).overall_score ∧
      (match_resume_to_job tfidf now ai recs resume jd).overall_score ≤ 1) ∧
    (∀ b, (match_resume_to_job tfidf now ai recs resume jd).score_breakdown = some b →
      (0 ≤ b.skills ∧ b.skills ≤ 1) ∧ (0 ≤ b.keywords ∧ b.keywords ≤ 1) ∧
      (0 ≤ b.experience ∧ b.experience ≤ 1) ∧ (0 ≤ b.education ∧ b.education ≤ 1)) ∧
    (0 ≤ (match_resume_to_job tfidf now ai recs resume jd).ats_score ∧
      (match_resume_to_job tfidf now ai recs resume jd).ats_score ≤ 1) := by
  rcases h : (analyze_job_description ai jd).required_skills with _ | req
  · rw [@match_resume_to_job_of_none tfidf now ai recs resume jd h]
    refine ⟨?_, ?_, ?_⟩ <;> simp [fallback_match_result]
  · rw [@match_resume_to_job_of_some tfidf now ai recs resume jd req h]
    dsimp only [match_success]
    have hs1 := calculate_skill_match_score_nonneg resume (analyze_job_description ai jd)
    have hs2 := calculate_skill_match_score_le_one resume (analyze_job_description ai jd)
    have hk := calculate_keyword_match_score_bounds tfidf htf (extract_resume_text resume)
      (analyze_job_description ai jd)
    have he1 := calculate_experience_match_score_nonneg now resume
      (analyze_job_description ai jd)
    have he2 := calculate_experience_match_score_le_one now resume
      (analyze_job_description ai jd)
    have hd1 := calculate_education_match_score_nonneg resume (analyze_job_description ai jd)
    have hd2 := calculate_education_match_score_le_one resume (analyze_job_description ai jd)
    have ha1 := calculate_ats_score_nonneg (extract_resume_text resume)
      (analyze_job_description ai jd)
    have ha2 := calculate_ats_score_le_one (extract_resume_text resume)
      (analyze_job_description ai jd)
    refine ⟨⟨?_, ?_⟩, ?_, ha1, ha2⟩
    · nlinarith [hs1, hk.1, he1, hd1]
    · nlinarith [hs2, hk.2, he2, hd2]
    · intro b hb
      injection hb with hb
      rw [← hb]
      exact ⟨⟨hs1, hs2⟩, ⟨hk.1, hk.2⟩, ⟨he1, he2⟩, ⟨hd1, hd2⟩⟩

/-- C3 witness: the bounds theorem applied at a concrete input with a
concrete in-range TF-IDF collaborator. -/
theorem C3_bounds_witness :
    (∀ a b v, tfidf_half a b = some v → 0 ≤ v ∧ v ≤ 1) ∧
    (0 ≤ (match_resume_to_job tfidf_half now_2025 (some ai_two_skills) none
        resume_two_skills "x").overall_score ∧
      (match_resume_to_job tfidf_half now_2025 (some ai_two_skills) none
        resume_two_skills "x").overall_score ≤ 1) ∧
    (0 ≤ (match_resume_to_job tfidf_half now_2025 (some ai_two_skills) none
        resume_two_skills "x").ats_score ∧
      (match_resume_to_job tfidf_half now_2025 (some ai_two_skills) none
        resume_two_skills "x").ats_score ≤ 1) := by
  have htf : ∀ a b v, tfidf_half a b = some v → 0 ≤ v ∧ v ≤ 1 := by
    intro a b v hv
    simp only [tfidf_half] at hv
    injection hv with hv
    rw [← hv]
    exact ⟨by decide, by decide⟩
  exact ⟨htf,
    (C3_bounds tfidf_half now_2025 (some ai_two_skills) none resume_two_skills "x" htf).1,
    (C3_bounds tfidf_half now_2025 (some ai_two_skills) none resume_two_skills "x"
      htf).2.2⟩

/-- C5: `level_match` is the banded level score of the computed years; the
bands behave as claimed (inclusive band → 1.0, above band → 0.9, below band
→ `years / band_min`, the `band_min = 0` below-band branch → 0.3, unknown
level → 0.5), and a resume with exactly 6.0 years scores 1.0 against
`senior` and 0.9 against `entry`. -/
theorem C5_experience_banding (now : Int × Int) (resume : ResumeData) (ja : JobAnalysis) :
    ((calculate_experience_match now resume ja).level_match =
      level_match_score (lower (ja.experience_level.getD "unknown"))
        (calculate_total_experience now resume)) ∧
    (∀ y : Rat,
      ((0 ≤ y ∧ y ≤ 2) → level_match_score "entry" y = 1) ∧
      (2 < y → level_match_score "entry" y = 0.9) ∧
      (y < 0 → level_match_score "entry" y = 0.3) ∧
      ((2 ≤ y ∧ y ≤ 5) → level_match_score "mid" y = 1) ∧
      (5 < y → level_match_score "mid" y = 0.9) ∧
      ((0 ≤ y ∧ y < 2) → level_match_score "mid" y = y / 2) ∧
      ((5 ≤ y ∧ y ≤ 10) → level_match_score "senior" y = 1) ∧
      (10 < y → level_match_score "senior" y = 0.9) ∧
      ((0 ≤ y ∧ y < 5) → level_match_score "senior" y = y / 5) ∧
      (10 ≤ y → level_match_score "executive" y = 1) ∧
      ((0 ≤ y ∧ y < 10) → level_match_score "executive" y = y / 10)) ∧
    (∀ lvl y, level_mapping.lookup lvl = none → level_match_score lvl y = 0.5) ∧
    calculate_total_experience now_2025 resume_six_years = 6 ∧
    (calculate_experience_match now_2025 resume_six_years ja_senior).level_match = 1 ∧
    (calculate_experience_match now_2025 resume_six_years ja_entry).level_match = 0.9 := by
  refine ⟨rfl, ?_, ?_, by decide, by decide, by decide⟩
  · intro y
    have hent : level_mapping.lookup "entry" = some ((0 : Rat), some (2 : Rat)) := by decide
    have hmid : level_mapping.lookup "mid" = some ((2 : Rat), some (5 : Rat)) := by decide
    have hsen : level_mapping.lookup "senior" = some ((5 : Rat), some (10 : Rat)) := by decide
    have hexe : level_mapping.lookup "executive" = some ((10 : Rat), none) := by decide
    refine ⟨?_, ?_, ?_, ?_, ?_, ?_, ?_, ?_, ?_, ?_, ?_⟩
    · rintro ⟨h1, h2⟩
      simp [level_match_score, hent, le_opt, h1, h2]
    · intro h
      have h1 : ¬ y ≤ 2 := not_le.mpr h
      simp [level_match_score, hent, le_opt, gt_opt, h, h1]
    · intro h
      have h1 : ¬ (0 : Rat) ≤ y := not_le.mpr h
      have h2 : ¬ (2 : Rat) < y := by linarith
      simp [level_match_score, hent, le_opt, gt_opt, h, h1, h2]
    · rintro ⟨h1, h2⟩
      simp [level_match_score, hmid, le_opt, h1, h2]
    · intro h
      have h1 : ¬ y ≤ 5 := not_le.mpr h
      simp [level_match_score, hmid, le_opt, gt_opt, h, h1]
    · rintro ⟨h1, h2⟩
      have h3 : ¬ (2 : Rat) ≤ y := not_le.mpr h2
      have h4 : ¬ (5 : Rat) < y := by linarith
      simp [level_match_score, hmid, le_opt, gt_opt, h2, h3, h4]
    · rintro ⟨h1, h2⟩
      simp [level_match_score, hsen, le_opt, h1, h2]
    · intro h
      have h1 : ¬ y ≤ 10 := not_le.mpr h
      simp [level_match_score, hsen, le_opt, gt_opt, h, h1]
    · rintro ⟨h1, h2⟩
      have h3 : ¬ (5 : Rat) ≤ y := not_le.mpr h2
      have h4 : ¬ (10 : Rat) < y := by linarith
      simp [level_match_score, hsen, le_opt, gt_opt, h2, h3, h4]
    · intro h
      simp [level_match_score, hexe, le_opt, h]
    · rintro ⟨h1, h2⟩
      have h3 : ¬ (10 : Rat) ≤ y := not_le.mpr h2
      simp [level_match_score, hexe, le_opt, gt_opt, h2, h3]
  · intro lvl y h
    simp [level_match_score, h]

/-- C5 witness: the banding theorem applied at concrete years and at the
concrete 6.0-year resume. -/
theorem C5_experience_banding_witness :
    ((5 : Rat) ≤ 6 ∧ (6 : Rat) ≤ 10) ∧ level_match_score "senior" 6 = 1 ∧
    (2 : Rat) < 6 ∧ level_match_score "entry" 6 = 0.9 ∧
    calculate_total_experience now_2025 resume_six_years = 6 ∧
    (calculate_experience_match now_2025 resume_six_years ja_senior).level_match = 1 ∧
    (calculate_experience_match now_2025 resume_six_years ja_entry).level_match = 0.9 :=
  ⟨⟨by norm_num, by norm_num⟩,
   ((C5_experience_banding now_2025 resume_empty ja_c9).2.1 6).2.2.2.2.2.2.1
     ⟨by norm_num, by norm_num⟩,
   by norm_num,
   ((C5_experience_banding now_2025 resume_empty ja_c9).2.1 6).2.1 (by norm_num),
   (C5_experience_banding now_2025 resume_empty ja_c9).2.2.2.1,
   (C5_experience_banding now_2025 resume_empty ja_c9).2.2.2.2.1,
   (C5_experience_banding now_2025 resume_empty ja_c9).2.2.2.2.2⟩

/-- C7 counterexample: an unrecognized non-empty target industry does not
yield 1.0; with the target string absent from the resume text the relevance
is 0.0 (the source falls back to `[target_industry]` itself as the keyword
list). -/
theorem C7_counterexample :
    check_industry_relevance resume_empty "aerospace" = 0 ∧ (0 : Rat) ≠ 1 := by
  decide

/-- C7 amended: the relevance is always in [0,1]; an empty target gives 1.0;
a recognized target gives the fraction of its keyword-table entries found in
the lowered resume text, capped at 1.0; an unrecognized non-empty target
falls back to the single keyword `[target_industry]`, giving 1.0 exactly when
the raw target string occurs in the lowered resume text and 0.0 otherwise. -/
theorem C7_industry_relevance (resume : ResumeData) (target : String) :
    (0 ≤ check_industry_relevance resume target ∧
      check_industry_relevance resume target ≤ 1) ∧
    (target = "" → check_industry_relevance resume target = 1) ∧
    (∀ kws, target ≠ "" → industry_keywords.lookup (lower target) = some kws →
      check_industry_relevance resume target =
        pyMin 1 (((kws.filter
          (fun kw => strContains (lower (extract_resume_text resume)) kw)).length : Rat) /
          (kws.length : Rat))) ∧
    (target ≠ "" → industry_keywords.lookup (lower target) = none →
      check_industry_relevance resume target =
        (if strContains (lower (extract_resume_text resume)) target = true
          then 1 else 0)) := by
  refine ⟨⟨check_industry_relevance_nonneg resume target,
    check_industry_relevance_le_one resume target⟩, ?_, ?_, ?_⟩
  · intro h
    simp [check_industry_relevance, h]
  · intro kws hne hk
    unfold check_industry_relevance
    rw [if_neg hne]
    dsimp only
    rw [hk]
    rfl
  · intro hne hk
    unfold check_industry_relevance
    rw [if_neg hne]
    dsimp only
    rw [hk]
    rcases hc : strContains (lower (extract_resume_text resume)) target with _ | _
    · simp only [Option.getD, List.filter, hc]
      norm_num [pyMin]
    · simp only [Option.getD, List.filter, hc]
      norm_num [pyMin]

/-- C7 witness: the amended theorem applied to an empty target, an
unrecognized target, and a recognized target. -/
theorem C7_industry_relevance_witness :
    check_industry_relevance resume_empty "" = 1 ∧
    check_industry_relevance resume_empty "aerospace" =
      (if strContains (lower (extract_resume_text resume_empty)) "aerospace" = true
        then 1 else 0) ∧
    check_industry_relevance resume_c9 "Technology" =
      pyMin 1 (((["software", "tech", "programming", "development", "IT",
        "computer"].filter
        (fun kw => strContains (lower (extract_resume_text resume_c9)) kw)).length : Rat) /
        ((["software", "tech", "programming", "development", "IT",
          "computer"] : List String).length : Rat)) :=
  ⟨(C7_industry_relevance resume_empty "").2.1 rfl,
   (C7_industry_relevance resume_empty "aerospace").2.2.2 (by decide) (by decide),
   (C7_industry_relevance resume_c9 "Technology").2.2.1
     ["software", "tech", "programming", "development", "IT", "computer"]
     (by decide) (by decide)⟩

end JobMatcher
